import Mathlib

/-!
Verification of the OTP issuance/verification protocol and the payment
attestation verifier of this repository.

The OTP handlers are embedded from `postgres-server.js` (routes
`/api/send-otp` and `/api/verify-otp`).  The file contains two storage
branches (PostgreSQL and the in-memory fallback) with the same logic; the
embedding follows the in-memory branch, whose JavaScript is complete in the
file, field for field.  Time is milliseconds since the epoch, as a natural
number (`Date.now()`).  `Math.random()` is modelled by a natural parameter
`rand`; `rand % 900000` stands for `Math.floor(Math.random() * 900000)`.
-/

/-- One stored OTP row: `{ id, email, otp, expires_at }` as pushed by the
`/api/send-otp` handler (`created_at` is never read and is omitted).
`id` is `Date.now()` at insertion time (a string in JS; `Nat.repr` is
injective, so we keep the number). -/
structure OtpRecord where
  id : Nat
  email : String
  otp : String
  expiresAt : Nat
  deriving Repr, DecidableEq

/-- The distinguishable failure outcomes of `/api/verify-otp`, one per
distinct error string in the handler. -/
inductive VerifyError where
  | MissingFields
  | MalformedCode
  | NoCodeRequested
  | CodeExpired
  | CodeMismatch
  deriving Repr, DecidableEq

inductive VerifyResult where
  | success
  | failure (e : VerifyError)
  deriving Repr, DecidableEq

/-- `generateOTP`: `Math.floor(100000 + Math.random() * 900000).toString()`. -/
def generateOTP (rand : Nat) : String :=
  Nat.repr (100000 + rand % 900000)

/-- The predicate of the lookup
`memoryData.emailOtps.find(o => o.email === email && o.otp === otp && new Date(o.expires_at) > new Date())`. -/
def otpMatches (email otp : String) (now : Nat) (o : OtpRecord) : Bool :=
  o.email == email && o.otp == otp && decide (now < o.expiresAt)

/-- The `/api/verify-otp` handler (in-memory branch).  Inputs are
`Option String` so that an absent JSON field is `none`; `!email || !otp`
is falsy also on the empty string.  Returns the result and the state of
the store after the call. -/
def verifyOtpHandler (state : List OtpRecord) (now : Nat)
    (emailField otpField : Option String) : VerifyResult × List OtpRecord :=
  match emailField, otpField with
  | some email, some otp =>
    if email = "" ∨ otp = "" then (.failure .MissingFields, state)
    else if otp.length ≠ 6 then (.failure .MalformedCode, state)
    else
      match state.find? (otpMatches email otp now) with
      | some r => (.success, state.filter (fun o => o.id != r.id))
      | none =>
        match state.find? (fun o => o.email == email) with
        | none => (.failure .NoCodeRequested, state)
        | some anyOtp =>
          if anyOtp.expiresAt ≤ now then (.failure .CodeExpired, state)
          else (.failure .CodeMismatch, state)
  | _, _ => (.failure .MissingFields, state)

/-- Shape of the `/api/send-otp` JSON response (`message` strings omitted;
a field the handler does not set is `none`). -/
structure SendOtpResponse where
  success : Bool
  emailSent : Option Bool
  debugOtp : Option String
  devOtp : Option String
  deriving Repr, DecidableEq

/-- The `/api/send-otp` handler (in-memory branch).  `storeOk` tells whether
the storage operations succeed; when they throw, the `catch` block answers
`success: true` with a second freshly generated code (`rand2`) and the store
is left as it was.  `emailSent` is the boolean returned by the email
dispatch collaborator `sendOTP`. -/
def sendOtpHandler (state : List OtpRecord) (now : Nat) (email : String)
    (rand rand2 : Nat) (storeOk : Bool) (emailSent : Bool) :
    SendOtpResponse × List OtpRecord :=
  if storeOk then
    let otp := generateOTP rand
    let expiresAt := now + 10 * 60 * 1000
    let cleaned := state.filter (fun o => decide (now < o.expiresAt))
    let replaced := cleaned.filter (fun o => o.email != email)
    let newState := replaced ++ [{ id := now, email := email, otp := otp,
                                   expiresAt := expiresAt }]
    ({ success := true, emailSent := some emailSent,
       debugOtp := if emailSent then none else some otp,
       devOtp := none }, newState)
  else
    ({ success := true, emailSent := none, debugOtp := none,
       devOtp := some (generateOTP rand2) }, state)

/-- Entitlement record `{ userId, paymentId, orderId, status: "active" }`. -/
structure Entitlement where
  userId : String
  paymentId : String
  orderId : String
  status : String
  deriving Repr, DecidableEq

structure User where
  id : String
  username : String
  email : String
  isPremium : Bool
  deriving Repr, DecidableEq

structure PayState where
  entitlements : List Entitlement
  users : List User
  deriving Repr, DecidableEq

inductive PayError where
  | NotConfigured
  | SignatureMismatch
  deriving Repr, DecidableEq

/-- Modelled from the spec: the payment attestation verifier
(`verifyPayment`, spec §4.2/§6) has no implementation under `src/`; the
repository snapshot lacks the payment-server variant.  Following the words of
the spec: recompute `expected = HMAC-SHA256(secret, orderId + "|" + paymentId)`
hex-encoded (the HMAC primitive is an external collaborator, abstracted as
`hmacHex`), compare exactly; on a match create the Entitlement and set the
premium flag of the user; on a mismatch fail with `SignatureMismatch` and touch
nothing; with no secret configured fail with `NotConfigured`. -/
def verifyPayment (hmacHex : String → String → String) (secret : Option String)
    (orderId paymentId signature userId : String) (st : PayState) :
    Except PayError Entitlement × PayState :=
  match secret with
  | none => (.error .NotConfigured, st)
  | some s =>
    let expected := hmacHex s (orderId ++ "|" ++ paymentId)
    if signature = expected then
      let ent : Entitlement := { userId := userId, paymentId := paymentId,
                                 orderId := orderId, status := "active" }
      (.ok ent,
        { entitlements := ent :: st.entitlements,
          users := st.users.map
            (fun u => if u.id = userId then { u with isPremium := true } else u) })
    else (.error .SignatureMismatch, st)

lemma toDigitsCore_length_eq : ∀ (f n : Nat) (l : List Char), n < 10 ^ f → 0 < f →
    (Nat.toDigitsCore 10 f n l).length = l.length + Nat.log 10 n + 1 := by
  intro f
  induction f with
  | zero => intro n l _ h; omega
  | succ f ih =>
    intro n l hlt _
    simp only [Nat.toDigitsCore]
    if hx : n / 10 = 0 then
      have hn : n < 10 := by omega
      have hlog : Nat.log 10 n = 0 := Nat.log_eq_zero_iff.mpr (Or.inl hn)
      simp [hx, hlog]
    else
      have hn : 10 ≤ n := by omega
      have hf : 0 < f := by
        by_contra hf0
        have : f = 0 := by omega
        subst this
        simp at hlt
        omega
      have hdiv : n / 10 < 10 ^ f := by
        rw [Nat.div_lt_iff_lt_mul (by norm_num)]
        calc n < 10 ^ (f + 1) := hlt
        _ = 10 ^ f * 10 := by ring
      have hlogpos : 0 < Nat.log 10 n := Nat.log_pos (by norm_num) hn
      have hld := Nat.log_div_base 10 n
      have := ih (n / 10) (Nat.digitChar (n % 10) :: l) hdiv hf
      simp only [hx, if_false, this, List.length_cons]
      omega

lemma repr_length_eq (n : Nat) : (Nat.repr n).length = Nat.log 10 n + 1 := by
  have hlt : n < 10 ^ (n + 1) := by
    calc n < 10 ^ n := Nat.lt_pow_self (by norm_num) n
    _ ≤ 10 ^ (n + 1) := Nat.pow_le_pow_right (by norm_num) (by omega)
  have := toDigitsCore_length_eq (n + 1) n [] hlt (by omega)
  simpa [Nat.repr, Nat.toDigits, String.length, List.asString] using this

lemma digitChar_isDigit : ∀ m, m < 10 → (Nat.digitChar m).isDigit := by decide

lemma toDigitsCore_isDigit : ∀ (f n : Nat) (l : List Char), (∀ c ∈ l, c.isDigit) →
    ∀ c ∈ Nat.toDigitsCore 10 f n l, c.isDigit := by
  intro f
  induction f with
  | zero => intro n l hl; simpa [Nat.toDigitsCore] using hl
  | succ f ih =>
    intro n l hl
    have hd : (Nat.digitChar (n % 10)).isDigit :=
      digitChar_isDigit _ (Nat.mod_lt n (by norm_num))
    simp only [Nat.toDigitsCore]
    if hx : n / 10 = 0 then
      simp only [hx, if_true]
      intro c hc
      rcases List.mem_cons.mp hc with h | h
      · subst h; exact hd
      · exact hl c h
    else
      simp only [hx, if_false]
      apply ih
      intro c hc
      rcases List.mem_cons.mp hc with h | h
      · subst h; exact hd
      · exact hl c h

lemma repr_isDigit (n : Nat) : ∀ c ∈ (Nat.repr n).data, c.isDigit := by
  have := toDigitsCore_isDigit (n + 1) n [] (by simp)
  simpa [Nat.repr, Nat.toDigits, String.length, List.asString] using this

/-- C8: every code the OTP generator produces is the decimal string of a
number in [100000, 999999]: exactly 6 characters, all of them digits. -/
theorem generateOTP_spec (rand : Nat) :
    ∃ n : Nat, 100000 ≤ n ∧ n ≤ 999999 ∧ generateOTP rand = Nat.repr n ∧
      (generateOTP rand).length = 6 ∧ ∀ c ∈ (generateOTP rand).data, c.isDigit := by
  have hm : rand % 900000 < 900000 := Nat.mod_lt rand (by norm_num)
  refine ⟨100000 + rand % 900000, by omega, by omega, rfl, ?_, ?_⟩
  · rw [generateOTP, repr_length_eq]
    have h5 : Nat.log 10 (100000 + rand % 900000) = 5 :=
      Nat.log_eq_of_pow_le_of_lt_pow (by norm_num) (by norm_num; omega)
    omega
  · exact repr_isDigit _

lemma verifyOtp_missing_left (state : List OtpRecord) (now : Nat) (c : Option String) :
    verifyOtpHandler state now none c = (.failure .MissingFields, state) := by
  simp [verifyOtpHandler]

lemma verifyOtp_found (state : List OtpRecord) (now : Nat) (e c : String)
    (r : OtpRecord) (he : e ≠ "") (hc : c ≠ "") (hlen : c.length = 6)
    (hfind : state.find? (otpMatches e c now) = some r) :
    verifyOtpHandler state now (some e) (some c)
      = (.success, state.filter (fun o => o.id != r.id)) := by
  simp [verifyOtpHandler, he, hc, hlen, hfind]

lemma verifyOtp_noRecord (state : List OtpRecord) (now : Nat) (e c : String)
    (he : e ≠ "") (hc : c ≠ "") (hlen : c.length = 6)
    (hfind : state.find? (otpMatches e c now) = none)
    (hany : state.find? (fun o => o.email == e) = none) :
    verifyOtpHandler state now (some e) (some c)
      = (.failure .NoCodeRequested, state) := by
  simp [verifyOtpHandler, he, hc, hlen, hfind, hany]

lemma verifyOtp_expired (state : List OtpRecord) (now : Nat) (e c : String)
    (a : OtpRecord) (he : e ≠ "") (hc : c ≠ "") (hlen : c.length = 6)
    (hfind : state.find? (otpMatches e c now) = none)
    (hany : state.find? (fun o => o.email == e) = some a)
    (hexp : a.expiresAt ≤ now) :
    verifyOtpHandler state now (some e) (some c)
      = (.failure .CodeExpired, state) := by
  simp [verifyOtpHandler, he, hc, hlen, hfind, hany, hexp]

lemma verifyOtp_mismatch (state : List OtpRecord) (now : Nat) (e c : String)
    (a : OtpRecord) (he : e ≠ "") (hc : c ≠ "") (hlen : c.length = 6)
    (hfind : state.find? (otpMatches e c now) = none)
    (hany : state.find? (fun o => o.email == e) = some a)
    (hexp : now < a.expiresAt) :
    verifyOtpHandler state now (some e) (some c)
      = (.failure .CodeMismatch, state) := by
  simp [verifyOtpHandler, he, hc, hlen, hfind, hany, Nat.not_le.mpr hexp]

lemma find?_append_singleton {α : Type} (l : List α) (p : α → Bool) (a : α)
    (h : ∀ x ∈ l, p x = false) :
    (l ++ [a]).find? p = if p a then some a else none := by
  rw [List.find?_append, List.find?_eq_none.mpr (by simpa using h)]
  cases hpa : p a <;> simp [List.find?, hpa]

lemma generateOTP_length (rand : Nat) : (generateOTP rand).length = 6 := by
  have hm : rand % 900000 < 900000 := Nat.mod_lt rand (by norm_num)
  rw [generateOTP, repr_length_eq]
  have h5 : Nat.log 10 (100000 + rand % 900000) = 5 :=
    Nat.log_eq_of_pow_le_of_lt_pow (by norm_num) (by norm_num; omega)
  omega

lemma generateOTP_ne_empty (rand : Nat) : generateOTP rand ≠ "" := by
  intro h
  have := generateOTP_length rand
  rw [h] at this
  simp at this

lemma sendOtp_state_eq (state : List OtpRecord) (now : Nat) (e : String)
    (rand rand2 : Nat) (es : Bool) :
    (sendOtpHandler state now e rand rand2 true es).2
      = ((state.filter (fun o => decide (now < o.expiresAt))).filter
          (fun o => o.email != e))
        ++ [⟨now, e, generateOTP rand, now + 10 * 60 * 1000⟩] := by
  simp [sendOtpHandler]

lemma mem_replaced_email_ne (state : List OtpRecord) (now : Nat) (e : String) :
    ∀ x ∈ (state.filter (fun o => decide (now < o.expiresAt))).filter
        (fun o => o.email != e), x.email ≠ e := by
  intro x hx
  have := (List.mem_filter.mp hx).2
  simpa using this

lemma sendOtp_find_new (state : List OtpRecord) (now : Nat) (e : String)
    (rand rand2 : Nat) (es : Bool) :
    ((sendOtpHandler state now e rand rand2 true es).2).find?
        (otpMatches e (generateOTP rand) now)
      = some ⟨now, e, generateOTP rand, now + 10 * 60 * 1000⟩ := by
  rw [sendOtp_state_eq]
  rw [find?_append_singleton]
  · simp [otpMatches]
  · intro x hx
    have hne := mem_replaced_email_ne state now e x hx
    simp [otpMatches, hne]

/-- C1: after `sendOtpHandler` stores a fresh code, an immediate
`verifyOtpHandler` with that code succeeds, and a second identical call
right after the first fails with `NoCodeRequested`: the successful
verification consumed the stored record. -/
theorem request_then_verify_consumes (state : List OtpRecord) (now : Nat)
    (e : String) (rand rand2 : Nat) (es : Bool) (he : e ≠ "") :
    (verifyOtpHandler (sendOtpHandler state now e rand rand2 true es).2 now
        (some e) (some (generateOTP rand))).1 = .success ∧
    (verifyOtpHandler
        (verifyOtpHandler (sendOtpHandler state now e rand rand2 true es).2 now
          (some e) (some (generateOTP rand))).2 now
        (some e) (some (generateOTP rand))).1 = .failure .NoCodeRequested := by
  have hfind := sendOtp_find_new state now e rand rand2 es
  have hfound := verifyOtp_found _ now e (generateOTP rand) _ he
    (generateOTP_ne_empty rand) (generateOTP_length rand) hfind
  constructor
  · rw [hfound]
  · rw [hfound]
    have hst2 : ∀ x ∈ ((sendOtpHandler state now e rand rand2 true es).2).filter
        (fun o => o.id != (⟨now, e, generateOTP rand,
          now + 10 * 60 * 1000⟩ : OtpRecord).id), x.email ≠ e := by
      rw [sendOtp_state_eq]
      intro x hx
      rw [List.filter_append] at hx
      rcases List.mem_append.mp hx with h | h
      · exact mem_replaced_email_ne state now e x (List.mem_of_mem_filter h)
      · simp [List.filter] at h
    rw [verifyOtp_noRecord _ now e (generateOTP rand) he
      (generateOTP_ne_empty rand) (generateOTP_length rand) ?_ ?_]
    · rw [List.find?_eq_none]
      intro x hx
      simp [otpMatches, hst2 x hx]
    · rw [List.find?_eq_none]
      intro x hx
      simp [hst2 x hx]

theorem request_then_verify_consumes_witness :
    ("a@b.com" : String) ≠ "" ∧
    ((verifyOtpHandler (sendOtpHandler [] 0 "a@b.com" 383920 0 true true).2 0
        (some "a@b.com") (some (generateOTP 383920))).1 = .success ∧
    (verifyOtpHandler
        (verifyOtpHandler (sendOtpHandler [] 0 "a@b.com" 383920 0 true true).2 0
          (some "a@b.com") (some (generateOTP 383920))).2 0
        (some "a@b.com") (some (generateOTP 383920))).1
      = .failure .NoCodeRequested) :=
  ⟨by decide, request_then_verify_consumes [] 0 "a@b.com" 383920 0 true (by decide)⟩

lemma find?_eq_some_of_unique {α : Type} (l : List α) (p : α → Bool) (a : α)
    (ha : a ∈ l) (hpa : p a = true)
    (huniq : ∀ x ∈ l, p x = true → x = a) :
    l.find? p = some a := by
  induction l with
  | nil => cases ha
  | cons x xs ih =>
    rcases List.mem_cons.mp ha with h | h
    · subst h
      simp [List.find?, hpa]
    · cases hpx : p x with
      | false =>
        simp only [List.find?, hpx]
        exact ih h (fun y hy hpy => huniq y (List.mem_cons_of_mem _ hy) hpy)
      | true =>
        have hxa := huniq x (List.mem_cons_self _ _) hpx
        subst hxa
        simp [List.find?, hpx]

lemma length_six_ne_empty {c : String} (hc : c.length = 6) : c ≠ "" := by
  intro h
  subst h
  simp at hc

/-- C2: with a 6-character code and at most one stored record per email,
a failing `verifyOtpHandler` distinguishes the three stored-state cases:
no record for the email gives `NoCodeRequested`, a record with
`expiresAt < now` gives `CodeExpired`, and an unexpired record whose code
differs gives `CodeMismatch`. -/
theorem verify_three_way_errors (state : List OtpRecord) (now : Nat)
    (e c : String) (he : e ≠ "") (hc : c.length = 6)
    (huniq : ∀ o1 ∈ state, ∀ o2 ∈ state,
      o1.email = e → o2.email = e → o1 = o2) :
    ((∀ o ∈ state, o.email ≠ e) →
      (verifyOtpHandler state now (some e) (some c)).1
        = .failure .NoCodeRequested) ∧
    (∀ o ∈ state, o.email = e → o.expiresAt < now →
      (verifyOtpHandler state now (some e) (some c)).1
        = .failure .CodeExpired) ∧
    (∀ o ∈ state, o.email = e → now < o.expiresAt → o.otp ≠ c →
      (verifyOtpHandler state now (some e) (some c)).1
        = .failure .CodeMismatch) := by
  have hce := length_six_ne_empty hc
  refine ⟨?_, ?_, ?_⟩
  · intro hnone
    rw [verifyOtp_noRecord state now e c he hce hc ?_ ?_]
    · rw [List.find?_eq_none]
      intro x hx
      simp [otpMatches, hnone x hx]
    · rw [List.find?_eq_none]
      intro x hx
      simp [hnone x hx]
  · intro o ho hoe hexp
    have hany : state.find? (fun o => o.email == e) = some o := by
      apply find?_eq_some_of_unique state _ o ho (by simp [hoe])
      intro x hx hpx
      exact huniq x hx o ho (by simpa using hpx) hoe
    rw [verifyOtp_expired state now e c o he hce hc ?_ hany (by omega)]
    rw [List.find?_eq_none]
    intro x hx
    by_cases hxe : x.email = e
    · have hxo := huniq x hx o ho hxe hoe
      subst hxo
      simp [otpMatches, Nat.not_lt.mpr (Nat.le_of_lt hexp)]
    · simp [otpMatches, hxe]
  · intro o ho hoe hlive hotp
    have hany : state.find? (fun o => o.email == e) = some o := by
      apply find?_eq_some_of_unique state _ o ho (by simp [hoe])
      intro x hx hpx
      exact huniq x hx o ho (by simpa using hpx) hoe
    rw [verifyOtp_mismatch state now e c o he hce hc ?_ hany hlive]
    rw [List.find?_eq_none]
    intro x hx
    by_cases hxe : x.email = e
    · have hxo := huniq x hx o ho hxe hoe
      subst hxo
      simp [otpMatches, hotp]
    · simp [otpMatches, hxe]

theorem verify_three_way_errors_witness :
    ("a@b.com" : String) ≠ "" ∧ ("111111" : String).length = 6 ∧
    (((∀ o ∈ ([⟨1, "a@b.com", "123456", 1000⟩] : List OtpRecord),
        o.email ≠ "a@b.com") →
      (verifyOtpHandler [⟨1, "a@b.com", "123456", 1000⟩] 5 (some "a@b.com")
          (some "111111")).1 = .failure .NoCodeRequested) ∧
    (∀ o ∈ ([⟨1, "a@b.com", "123456", 1000⟩] : List OtpRecord),
        o.email = "a@b.com" → o.expiresAt < 5 →
      (verifyOtpHandler [⟨1, "a@b.com", "123456", 1000⟩] 5 (some "a@b.com")
          (some "111111")).1 = .failure .CodeExpired) ∧
    (∀ o ∈ ([⟨1, "a@b.com", "123456", 1000⟩] : List OtpRecord),
        o.email = "a@b.com" → 5 < o.expiresAt → o.otp ≠ "111111" →
      (verifyOtpHandler [⟨1, "a@b.com", "123456", 1000⟩] 5 (some "a@b.com")
          (some "111111")).1 = .failure .CodeMismatch)) :=
  ⟨by decide, by decide,
    verify_three_way_errors [⟨1, "a@b.com", "123456", 1000⟩] 5 "a@b.com"
      "111111" (by decide) (by decide) (by decide)⟩

/-- C3 counterexample: at `now` equal to `expiresAt` exactly, the correct
code does not verify — the handler answers `CodeExpired`, so a record is
not valid "up to and including" the `expiresAt` instant. -/
theorem verify_at_expiry_instant_fails :
    (verifyOtpHandler [⟨1, "a@b.com", "123456", 1000⟩] 1000 (some "a@b.com")
        (some "123456")).1 = .failure .CodeExpired ∧
    (verifyOtpHandler [⟨1, "a@b.com", "123456", 1000⟩] 1000 (some "a@b.com")
        (some "123456")).1 ≠ .success := by
  constructor <;> decide

/-- C3 (amended): a successful `verifyOtpHandler` requires a stored record
for the email holding that code with `now < expiresAt` strictly; hence for
every time at or after the `expiresAt` of a record, that record can never
produce a success, whether or not it was physically purged. -/
theorem verify_success_requires_unexpired (state : List OtpRecord)
    (now : Nat) (e c : String)
    (h : (verifyOtpHandler state now (some e) (some c)).1 = .success) :
    ∃ o ∈ state, o.email = e ∧ o.otp = c ∧ now < o.expiresAt := by
  by_cases h1 : e = "" ∨ c = ""
  · simp [verifyOtpHandler, h1] at h
  · by_cases h2 : c.length = 6
    · cases hfind : state.find? (otpMatches e c now) with
      | none =>
        cases hany : state.find? (fun o => o.email == e) with
        | none => simp [verifyOtpHandler, h1, h2, hfind, hany] at h
        | some a =>
          by_cases h3 : a.expiresAt ≤ now <;>
            simp [verifyOtpHandler, h1, h2, hfind, hany, h3] at h
      | some r =>
        have hmem := List.mem_of_find?_eq_some hfind
        have hp := List.find?_some hfind
        simp only [otpMatches, Bool.and_eq_true, beq_iff_eq,
          decide_eq_true_eq] at hp
        exact ⟨r, hmem, hp.1.1, hp.1.2, hp.2⟩
    · simp [verifyOtpHandler, h1, h2] at h

theorem verify_success_requires_unexpired_witness :
    (verifyOtpHandler [⟨1, "a@b.com", "123456", 1000⟩] 5 (some "a@b.com")
        (some "123456")).1 = .success ∧
    ∃ o ∈ ([⟨1, "a@b.com", "123456", 1000⟩] : List OtpRecord),
      o.email = "a@b.com" ∧ o.otp = "123456" ∧ 5 < o.expiresAt :=
  ⟨by decide,
    verify_success_requires_unexpired [⟨1, "a@b.com", "123456", 1000⟩] 5
      "a@b.com" "123456" (by decide)⟩

lemma sendOtp_filter_email (state : List OtpRecord) (now : Nat) (e : String)
    (rand rand2 : Nat) (es : Bool) :
    ((sendOtpHandler state now e rand rand2 true es).2).filter
        (fun o => o.email == e)
      = [⟨now, e, generateOTP rand, now + 10 * 60 * 1000⟩] := by
  rw [sendOtp_state_eq, List.filter_append]
  have h1 : ((state.filter (fun o => decide (now < o.expiresAt))).filter
      (fun o => o.email != e)).filter (fun o => o.email == e) = [] := by
    rw [List.filter_eq_nil_iff]
    intro a ha
    simp [mem_replaced_email_ne state now e a ha]
  rw [h1]
  simp [List.filter]

lemma mem_sendOtp_state (state : List OtpRecord) (now : Nat) (e : String)
    (rand rand2 : Nat) (es : Bool) :
    ∀ x ∈ (sendOtpHandler state now e rand rand2 true es).2,
      x.email ≠ e ∨ x = ⟨now, e, generateOTP rand, now + 10 * 60 * 1000⟩ := by
  rw [sendOtp_state_eq]
  intro x hx
  rcases List.mem_append.mp hx with h | h
  · exact Or.inl (mem_replaced_email_ne state now e x h)
  · simp at h
    exact Or.inr h

lemma sendOtp_find_email (state : List OtpRecord) (now : Nat) (e : String)
    (rand rand2 : Nat) (es : Bool) :
    ((sendOtpHandler state now e rand rand2 true es).2).find?
        (fun o => o.email == e)
      = some ⟨now, e, generateOTP rand, now + 10 * 60 * 1000⟩ := by
  rw [sendOtp_state_eq, find?_append_singleton]
  · simp
  · intro x hx
    simp [mem_replaced_email_ne state now e x hx]

/-- C4: issuing a new code replaces the old one.  After a second
`sendOtpHandler` for the same email, the store holds exactly one record for
that email (the second one); the second code verifies, while the first
code fails with `CodeMismatch`. -/
theorem reissue_invalidates_old (state : List OtpRecord) (now1 now2 : Nat)
    (e : String) (r1 r1b r2 r2b : Nat) (es1 es2 : Bool)
    (he : e ≠ "") (hne : generateOTP r1 ≠ generateOTP r2) :
    ((sendOtpHandler (sendOtpHandler state now1 e r1 r1b true es1).2 now2 e
        r2 r2b true es2).2).filter (fun o => o.email == e)
      = [⟨now2, e, generateOTP r2, now2 + 10 * 60 * 1000⟩] ∧
    (verifyOtpHandler (sendOtpHandler (sendOtpHandler state now1 e r1 r1b
        true es1).2 now2 e r2 r2b true es2).2 now2
        (some e) (some (generateOTP r2))).1 = .success ∧
    (verifyOtpHandler (sendOtpHandler (sendOtpHandler state now1 e r1 r1b
        true es1).2 now2 e r2 r2b true es2).2 now2
        (some e) (some (generateOTP r1))).1 = .failure .CodeMismatch := by
  refine ⟨sendOtp_filter_email _ now2 e r2 r2b es2, ?_, ?_⟩
  · rw [verifyOtp_found _ now2 e (generateOTP r2) _ he
      (generateOTP_ne_empty r2) (generateOTP_length r2)
      (sendOtp_find_new _ now2 e r2 r2b es2)]
  · rw [verifyOtp_mismatch _ now2 e (generateOTP r1)
      ⟨now2, e, generateOTP r2, now2 + 10 * 60 * 1000⟩ he
      (generateOTP_ne_empty r1) (generateOTP_length r1) ?_
      (sendOtp_find_email _ now2 e r2 r2b es2) (by simp)]
    rw [List.find?_eq_none]
    intro x hx
    rcases mem_sendOtp_state _ now2 e r2 r2b es2 x hx with h | h
    · simp [otpMatches, h]
    · subst h
      have hne2 : generateOTP r2 ≠ generateOTP r1 := Ne.symm hne
      simp [otpMatches, hne2]

theorem reissue_invalidates_old_witness :
    ("a@b.com" : String) ≠ "" ∧ generateOTP 383920 ≠ generateOTP 0 ∧
    (((sendOtpHandler (sendOtpHandler [] 0 "a@b.com" 383920 0 true true).2 1
        "a@b.com" 0 0 true true).2).filter (fun o => o.email == "a@b.com")
      = [⟨1, "a@b.com", generateOTP 0, 1 + 10 * 60 * 1000⟩] ∧
    (verifyOtpHandler (sendOtpHandler (sendOtpHandler [] 0 "a@b.com" 383920 0
        true true).2 1 "a@b.com" 0 0 true true).2 1
        (some "a@b.com") (some (generateOTP 0))).1 = .success ∧
    (verifyOtpHandler (sendOtpHandler (sendOtpHandler [] 0 "a@b.com" 383920 0
        true true).2 1 "a@b.com" 0 0 true true).2 1
        (some "a@b.com") (some (generateOTP 383920))).1
      = .failure .CodeMismatch) :=
  ⟨by decide, by decide,
    reissue_invalidates_old [] 0 1 "a@b.com" 383920 0 0 0 true true
      (by decide) (by decide)⟩

/-- C6 counterexample: the empty submitted code has length 0 ≠ 6, yet the
handler rejects it with the missing-fields error (`!email || !otp` is falsy
on `""`), not with `MalformedCode`. -/
theorem empty_code_fails_before_length_check :
    (verifyOtpHandler [] 0 (some "a@b.com") (some "")).1
        ≠ .failure .MalformedCode ∧
    (verifyOtpHandler [] 0 (some "a@b.com") (some "")).1
        = .failure .MissingFields := by
  constructor <;> decide

/-- C6 (amended): for a provided non-empty email and a provided non-empty
code whose length is not 6, `verifyOtpHandler` fails with `MalformedCode`
and leaves the store untouched, whatever the stored state; an absent or
empty field fails earlier with the missing-fields error. -/
theorem malformed_code_rejected (state : List OtpRecord) (now : Nat)
    (e c : String) (he : e ≠ "") (hc : c ≠ "") (hlen : c.length ≠ 6) :
    verifyOtpHandler state now (some e) (some c)
      = (.failure .MalformedCode, state) := by
  simp [verifyOtpHandler, he, hc, hlen]

theorem malformed_code_rejected_witness :
    ("a@b.com" : String) ≠ "" ∧ ("12345" : String) ≠ "" ∧
    ("12345" : String).length ≠ 6 ∧
    verifyOtpHandler [⟨1, "a@b.com", "123456", 1000⟩] 5 (some "a@b.com")
        (some "12345")
      = (.failure .MalformedCode, [⟨1, "a@b.com", "123456", 1000⟩]) :=
  ⟨by decide, by decide, by decide,
    malformed_code_rejected [⟨1, "a@b.com", "123456", 1000⟩] 5 "a@b.com"
      "12345" (by decide) (by decide) (by decide)⟩

/-- C7 counterexample: when the storage operations fail, the
`catch` block of the handler still answers `success: true` (with a second freshly
generated `devOtp`) and persists nothing — it does not report a
storage-unavailable error. -/
theorem storage_failure_reported_as_success :
    (sendOtpHandler [] 0 "a@b.com" 5 7 false true).1.success = true ∧
    (sendOtpHandler [] 0 "a@b.com" 5 7 false true).1.devOtp
        = some (generateOTP 7) ∧
    (sendOtpHandler [] 0 "a@b.com" 5 7 false true).2 = [] := by
  refine ⟨rfl, rfl, rfl⟩

/-- C7 (amended): with working storage the handler stores the new record
and reports success whatever the email-dispatch outcome; when storage
fails, it still reports `success: true`, with a fresh `devOtp` and an
unchanged store — storage failures are swallowed, never surfaced as a
distinct error. -/
theorem sendOtp_response_spec (state : List OtpRecord) (now : Nat)
    (e : String) (rand rand2 : Nat) (es : Bool) :
    ((sendOtpHandler state now e rand rand2 true es).1.success = true ∧
      (⟨now, e, generateOTP rand, now + 10 * 60 * 1000⟩ : OtpRecord)
        ∈ (sendOtpHandler state now e rand rand2 true es).2) ∧
    ((sendOtpHandler state now e rand rand2 false es).1
        = { success := true, emailSent := none, debugOtp := none,
            devOtp := some (generateOTP rand2) } ∧
      (sendOtpHandler state now e rand rand2 false es).2 = state) := by
  refine ⟨⟨rfl, ?_⟩, rfl, rfl⟩
  rw [sendOtp_state_eq]
  simp

/-- C9: every failing `verifyOtpHandler` call — missing field, malformed
code, no record, expired record, or mismatched code — leaves the OTP store
exactly as it was. -/
theorem verify_failure_preserves_state (state : List OtpRecord) (now : Nat)
    (emailField otpField : Option String)
    (h : (verifyOtpHandler state now emailField otpField).1 ≠ .success) :
    (verifyOtpHandler state now emailField otpField).2 = state := by
  cases emailField with
  | none => simp [verifyOtpHandler]
  | some e =>
    cases otpField with
    | none => simp [verifyOtpHandler]
    | some c =>
      by_cases h1 : e = "" ∨ c = ""
      · simp [verifyOtpHandler, h1]
      · by_cases h2 : c.length = 6
        · cases hfind : state.find? (otpMatches e c now) with
          | none =>
            cases hany : state.find? (fun o => o.email == e) with
            | none => simp [verifyOtpHandler, h1, h2, hfind, hany]
            | some a =>
              by_cases h3 : a.expiresAt ≤ now <;>
                simp [verifyOtpHandler, h1, h2, hfind, hany, h3]
          | some r =>
            exfalso
            apply h
            simp [verifyOtpHandler, h1, h2, hfind]
        · simp [verifyOtpHandler, h1, h2]

theorem verify_failure_preserves_state_witness :
    (verifyOtpHandler [⟨1, "a@b.com", "123456", 1000⟩] 5 (some "a@b.com")
        (some "654321")).1 ≠ .success ∧
    (verifyOtpHandler [⟨1, "a@b.com", "123456", 1000⟩] 5 (some "a@b.com")
        (some "654321")).2 = [⟨1, "a@b.com", "123456", 1000⟩] :=
  ⟨by decide,
    verify_failure_preserves_state [⟨1, "a@b.com", "123456", 1000⟩] 5
      (some "a@b.com") (some "654321") (by decide)⟩

lemma filter_ne_id_eq_erase (l : List OtpRecord) (r : OtpRecord)
    (hids : (l.map (fun o => o.id)).Nodup) (hr : r ∈ l) :
    l.filter (fun o => o.id != r.id) = l.erase r := by
  induction l with
  | nil => cases hr
  | cons x xs ih =>
    rw [List.map_cons, List.nodup_cons] at hids
    obtain ⟨hxid, hxs⟩ := hids
    rcases List.mem_cons.mp hr with h | h
    · subst h
      rw [List.erase_cons_head]
      simp only [List.filter_cons, bne_self_eq_false, Bool.false_eq_true,
        if_false]
      rw [List.filter_eq_self]
      intro a ha
      have haid : a.id ∈ xs.map (fun o => o.id) := List.mem_map_of_mem _ ha
      simp only [bne_iff_ne, ne_eq]
      intro hEq
      exact hxid (hEq ▸ haid)
    · have hxr_id : x.id ≠ r.id := by
        intro hEq
        exact hxid (hEq ▸ List.mem_map_of_mem _ h)
      have hxr : ¬(x == r) := by
        simp only [beq_iff_eq]
        intro hEq
        exact hxr_id (by rw [hEq])
      rw [List.erase_cons_tail]
      · rw [List.filter_cons]
        simp only [bne_iff_ne, ne_eq, hxr_id, not_false_iff, if_true]
        rw [ih hxs h]
      · simpa using hxr

/-- C10: a successful `verifyOtpHandler` removes exactly the one matched
record, identified by its `id` (given the ids in the store are distinct): the
new store is the old one with that record erased, and every other record —
for this email or any other — is still present. -/
theorem verify_success_deletes_only_match (state : List OtpRecord)
    (now : Nat) (e c : String)
    (hids : (state.map (fun o => o.id)).Nodup)
    (hsucc : (verifyOtpHandler state now (some e) (some c)).1 = .success) :
    ∃ r ∈ state, r.email = e ∧ r.otp = c ∧ now < r.expiresAt ∧
      (verifyOtpHandler state now (some e) (some c)).2 = state.erase r ∧
      ∀ o ∈ state, o ≠ r →
        o ∈ (verifyOtpHandler state now (some e) (some c)).2 := by
  by_cases h1 : e = "" ∨ c = ""
  · simp [verifyOtpHandler, h1] at hsucc
  · by_cases h2 : c.length = 6
    · cases hfind : state.find? (otpMatches e c now) with
      | none =>
        cases hany : state.find? (fun o => o.email == e) with
        | none => simp [verifyOtpHandler, h1, h2, hfind, hany] at hsucc
        | some a =>
          by_cases h3 : a.expiresAt ≤ now <;>
            simp [verifyOtpHandler, h1, h2, hfind, hany, h3] at hsucc
      | some r =>
        have hmem := List.mem_of_find?_eq_some hfind
        have hp := List.find?_some hfind
        simp only [otpMatches, Bool.and_eq_true, beq_iff_eq,
          decide_eq_true_eq] at hp
        have hres : verifyOtpHandler state now (some e) (some c)
            = (.success, state.filter (fun o => o.id != r.id)) := by
          simp [verifyOtpHandler, h1, h2, hfind]
        refine ⟨r, hmem, hp.1.1, hp.1.2, hp.2, ?_, ?_⟩
        · rw [hres]
          exact filter_ne_id_eq_erase state r hids hmem
        · intro o ho hne
          rw [hres]
          rw [filter_ne_id_eq_erase state r hids hmem]
          exact (List.mem_erase_of_ne hne).mpr ho
    · simp [verifyOtpHandler, h1, h2] at hsucc

theorem verify_success_deletes_only_match_witness :
    (([⟨1, "a@b.com", "123456", 1000⟩, ⟨2, "x@y.org", "777777", 1000⟩]
        : List OtpRecord).map (fun o => o.id)).Nodup ∧
    (verifyOtpHandler [⟨1, "a@b.com", "123456", 1000⟩,
        ⟨2, "x@y.org", "777777", 1000⟩] 5 (some "a@b.com")
        (some "123456")).1 = .success ∧
    ∃ r ∈ ([⟨1, "a@b.com", "123456", 1000⟩, ⟨2, "x@y.org", "777777", 1000⟩]
        : List OtpRecord), r.email = "a@b.com" ∧ r.otp = "123456" ∧
      5 < r.expiresAt ∧
      (verifyOtpHandler [⟨1, "a@b.com", "123456", 1000⟩,
          ⟨2, "x@y.org", "777777", 1000⟩] 5 (some "a@b.com")
          (some "123456")).2
        = ([⟨1, "a@b.com", "123456", 1000⟩,
            ⟨2, "x@y.org", "777777", 1000⟩] : List OtpRecord).erase r ∧
      ∀ o ∈ ([⟨1, "a@b.com", "123456", 1000⟩,
          ⟨2, "x@y.org", "777777", 1000⟩] : List OtpRecord), o ≠ r →
        o ∈ (verifyOtpHandler [⟨1, "a@b.com", "123456", 1000⟩,
            ⟨2, "x@y.org", "777777", 1000⟩] 5 (some "a@b.com")
            (some "123456")).2 :=
  ⟨by decide, by decide,
    verify_success_deletes_only_match
      [⟨1, "a@b.com", "123456", 1000⟩, ⟨2, "x@y.org", "777777", 1000⟩] 5
      "a@b.com" "123456" (by decide) (by decide)⟩

/-- C5: with a configured secret, `verifyPayment` succeeds exactly when the
supplied signature equals the recomputed HMAC hex of
`orderId ++ "|" ++ paymentId`; on a mismatch it fails with
`SignatureMismatch` and neither creates an entitlement nor mutates any
user. -/
theorem verifyPayment_signature_spec (hmacHex : String → String → String)
    (s orderId paymentId signature userId : String) (st : PayState) :
    ((∃ ent, (verifyPayment hmacHex (some s) orderId paymentId signature
        userId st).1 = .ok ent)
      ↔ signature = hmacHex s (orderId ++ "|" ++ paymentId)) ∧
    (signature ≠ hmacHex s (orderId ++ "|" ++ paymentId) →
      verifyPayment hmacHex (some s) orderId paymentId signature userId st
        = (.error .SignatureMismatch, st)) := by
  by_cases hsig : signature = hmacHex s (orderId ++ "|" ++ paymentId) <;>
    simp [verifyPayment, hsig]

theorem verifyPayment_signature_spec_witness :
    ("zz" ≠ (fun k m => k ++ m) "secret" ("o1" ++ "|" ++ "p1") ∧
      verifyPayment (fun k m => k ++ m) (some "secret") "o1" "p1" "zz" "u1"
          ⟨[], []⟩
        = (.error .SignatureMismatch, ⟨[], []⟩)) ∧
    ((∃ ent, (verifyPayment (fun k m => k ++ m) (some "secret") "o1" "p1"
        "zz" "u1" ⟨[], []⟩).1 = .ok ent)
      ↔ "zz" = (fun k m => k ++ m) "secret" ("o1" ++ "|" ++ "p1")) :=
  ⟨⟨by decide,
    (verifyPayment_signature_spec (fun k m => k ++ m) "secret" "o1" "p1"
        "zz" "u1" ⟨[], []⟩).2 (by decide)⟩,
    (verifyPayment_signature_spec (fun k m => k ++ m) "secret" "o1" "p1"
        "zz" "u1" ⟨[], []⟩).1⟩
